import Mathlib

/-!
Verification of the Midea dehumidifier appliance protocol library
(`midea-beautiful-air`): a shallow embedding of
`midea_beautiful_dehumidifier/command.py` (command construction,
finalization, response decoding) and of the cloud request/retry state
machine exercised by `tests/test_cloud.py`.

Byte buffers (`bytearray` / `bytes`) are embedded as `List Nat` whose
entries are intended to lie below 256; Python slice `d[a:b]` becomes
`pySlice d a b`, and in-place cell mutation becomes `List.set`.
-/

namespace Midea

/-- Python slice `d[a:b]` (for `0 ≤ a ≤ b`): drop `a` elements, take `b - a`. -/
def pySlice (d : List Nat) (a b : Nat) : List Nat :=
  (d.drop a).take (b - a)

/-- Modelled from the spec: `crc8` lives in
`midea_beautiful_dehumidifier/crypto.py`, which is not part of the
available sources; the spec only requires a deterministic pure CRC8
of the payload bytes.  Modelled as the standard CRC-8/MAXIM step used
by the Midea protocol (reflected polynomial `0x8C`): one shift-xor
round of the running remainder. -/
def crc8Step (c : Nat) : Nat :=
  if c % 2 == 1 then (c / 2) ^^^ 0x8C else c / 2

/-- Modelled from the spec: absorb one input byte into the CRC-8/MAXIM
remainder (xor, then eight shift-xor rounds). -/
def crc8Byte (c b : Nat) : Nat :=
  crc8Step (crc8Step (crc8Step (crc8Step (crc8Step (crc8Step (crc8Step
    (crc8Step ((c ^^^ b) % 256))))))))

/-- Modelled from the spec: `crc8(data)` — CRC-8/MAXIM of a byte sequence,
initial remainder 0. -/
def crc8 (data : List Nat) : Nat :=
  data.foldl crc8Byte 0

/-- Embeds Python `(~s + 1) & 0xFF`: on unbounded integers `~s + 1 = -s`,
and `& 0xFF` of an integer is its non-negative residue mod 256. -/
def checksum8 (s : Nat) : Nat :=
  ((-(s : Int)) % 256).toNat

/-- The spec's wording: "the two's-complement of the sum ..., mod 256". -/
def twosComplement8 (s : Nat) : Nat :=
  (256 - s % 256) % 256

/-- Embeds `_order = (_order + 1) & 0xFF` (module-global order counter). -/
def nextOrder (o : Nat) : Nat :=
  (o + 1) &&& 0xFF

/-- `DehumidifierStatusCommand.__init__`: the 33-byte status-query template
(header `0xAA`, length `0x20`, appliance type `0xA1`, ..., message type
`0x03` at offset 9, payload from offset 10, order/CRC8/checksum at
offsets 30/31/32). -/
def statusData : List Nat :=
  [0xAA, 0x20, 0xA1, 0x00, 0x00, 0x00, 0x00, 0x00, 0x03, 0x03,
   0x41, 0x81, 0x00, 0xFF, 0x03, 0xFF, 0x00, 0x02, 0x00, 0x00,
   0x00, 0x00, 0x00, 0x00, 0x00, 0x00, 0x00, 0x00, 0x00, 0x00,
   0x00, 0x00, 0x00]

/-- `DehumidifierSetCommand.__init__`: the 33-byte set-command template
(message type `0x02` at offset 9, request type `0x48` at offset 10,
power flags at offset 11, mode at 12, fan at 13, humidity at 17). -/
def setData : List Nat :=
  [0xAA, 0x20, 0xA1, 0x00, 0x00, 0x00, 0x00, 0x00, 0x03, 0x02,
   0x48, 0x00, 0x01, 0x32, 0x00, 0x00, 0x00, 0x00, 0x00, 0x00,
   0x00, 0x00, 0x00, 0x00, 0x00, 0x00, 0x00, 0x00, 0x00, 0x00,
   0x00, 0x00, 0x00]

/-- Result of `finalize`: the emitted wire bytes together with the updated
value of the module-global `_order` counter. -/
structure FinalizeResult where
  bytes : List Nat
  order : Nat
  deriving Repr, DecidableEq

/-- `finalize` (identical bodies in `DehumidifierStatusCommand.finalize` and
`DehumidifierSetCommand.finalize`), with the module-global `_order` made an
explicit input/output:

    _order = (_order + 1) & 0xFF
    self.data[30] = _order
    self.data[31] = crc8(self.data[10:31])
    self.data[32] = (~sum(self.data[1:32]) + 1) & 0xFF
    return bytes(self.data)
-/
def finalize (d : List Nat) (o : Nat) : FinalizeResult :=
  let o1 := nextOrder o
  let d1 := d.set 30 o1
  let d2 := d1.set 31 (crc8 (pySlice d1 10 31))
  let d3 := d2.set 32 (checksum8 (pySlice d2 1 32).sum)
  { bytes := d3, order := o1 }

/-- Common shape of every `DehumidifierSetCommand` setter:

    self.data[i] &= ~mask   # clear the field's bits
    self.data[i] |= v       # or-in the new value

Cells of a `bytearray` are below 256, so Python's unbounded-width
`& ~mask` on them coincides with `& (0xFF ^ mask)`. -/
def maskedSet (d : List Nat) (i mask v : Nat) : List Nat :=
  d.set i ((d.getD i 0 &&& (0xFF ^^^ mask)) ||| v)

/-- `is_on` setter: byte 11, mask `0x01`, value `0x01 if state else 0`. -/
def set_is_on (d : List Nat) (state : Bool) : List Nat :=
  maskedSet d 11 0x01 (if state then 0x01 else 0)

/-- `ion_mode` setter: byte 19, mask `0x60`, value `0x60 if mode else 0`. -/
def set_ion_mode (d : List Nat) (mode : Bool) : List Nat :=
  maskedSet d 19 0x60 (if mode then 0x60 else 0)

/-- `target_humidity` setter: byte 17, mask `0x7F`, value `humidity`. -/
def set_target_humidity (d : List Nat) (humidity : Nat) : List Nat :=
  maskedSet d 17 0x7F humidity

/-- `mode` setter: byte 12, mask `0x0F`, value `mode`. -/
def set_mode (d : List Nat) (mode : Nat) : List Nat :=
  maskedSet d 12 0x0F mode

/-- `fan_speed` setter: byte 13, mask `0x7F`, value `speed`. -/
def set_fan_speed (d : List Nat) (speed : Nat) : List Nat :=
  maskedSet d 13 0x7F speed

/-- `is_on` getter: `self.data[11] & 0x01 != 0`. -/
def get_is_on (d : List Nat) : Bool :=
  (d.getD 11 0 &&& 0x01) != 0

/-- `ion_mode` getter: `self.data[19] & 0x60 != 0`. -/
def get_ion_mode (d : List Nat) : Bool :=
  (d.getD 19 0 &&& 0x60) != 0

/-- `target_humidity` getter: `self.data[17] & 0x7F`. -/
def get_target_humidity (d : List Nat) : Nat :=
  d.getD 17 0 &&& 0x7F

/-- `mode` getter: `self.data[12] & 0x0F`. -/
def get_mode (d : List Nat) : Nat :=
  d.getD 12 0 &&& 0x0F

/-- `fan_speed` getter: `self.data[13] & 0x7F`. -/
def get_fan_speed (d : List Nat) : Nat :=
  d.getD 13 0 &&& 0x7F

/-- Decoded on/off timer, as produced by the `on_timer` / `off_timer`
properties of `DehumidifierResponse` (the Python code returns a dict with
keys `status`, `set`, `hour`, `minutes` plus the two raw bytes). -/
structure TimerState where
  status : Bool
  set : Bool
  hour : Nat
  minutes : Nat
  deriving Repr, DecidableEq

/-- `DehumidifierResponse.on_timer` over the raw timer byte `v`
(`data[0x04]`) and the paired minute byte `m` (`data[0x06]`):

    status  = (v & 0x80) != 0
    set     = v != 0x7F
    hour    = (v & 0x7C) >> 2 if v != 0x7F else 0
    minutes = (v & 0x3) | (((m & 0xF0) >> 4) if v != 0x7F else 0)
-/
def on_timer (v m : Nat) : TimerState :=
  { status := (v &&& 0x80) != 0
    set := v != 0x7F
    hour := if v != 0x7F then (v &&& 0x7C) >>> 2 else 0
    minutes := (v &&& 0x3) ||| (if v != 0x7F then (m &&& 0xF0) >>> 4 else 0) }

/-- `DehumidifierResponse.off_timer` over the raw timer byte `v`
(`data[0x05]`) and the paired minute byte `m` (`data[0x06]`):

    status  = (v & 0x80) != 0
    set     = v != 0x7F
    hour    = (v & 0x7C) >> 2
    minutes = (v & 0x3) | (m & 0xF)
-/
def off_timer (v m : Nat) : TimerState :=
  { status := (v &&& 0x80) != 0
    set := v != 0x7F
    hour := (v &&& 0x7C) >>> 2
    minutes := (v &&& 0x3) ||| (m &&& 0xF) }

/-- The fields `DehumidifierResponse.__init__` decodes (commented-out
assignments in the source are omitted). -/
structure DehumidifierResponse where
  is_on : Bool
  mode : Nat
  fan_speed : Nat
  on_timer_value : Nat
  on_timer_minutes : Nat
  off_timer_value : Nat
  off_timer_minutes : Nat
  target_humidity : Nat
  ion_mode : Bool
  tank_full : Bool
  current_humidity : Nat
  err_code : Nat
  deriving Repr, DecidableEq

/-- `DehumidifierResponse.__init__(data)`.  Each Python `data[i]` raises
`IndexError` when `i` is out of range, so the constructor either returns a
fully decoded record or fails with no partially decoded state; this is
embedded by reading every accessed index through `Option` (accesses in
source order: 4, 2, 3, 4, 6, 5, 6, 7, 9, 10, 16, 21).  Note the source
checks no header byte and no explicit minimum length. -/
def decodeResponse (d : List Nat) : Option DehumidifierResponse := do
  let b4 ← d[4]?
  let b2 ← d[2]?
  let b3 ← d[3]?
  let b6 ← d[6]?
  let b5 ← d[5]?
  let b7 ← d[7]?
  let b9 ← d[9]?
  let b10 ← d[10]?
  let b16 ← d[16]?
  let b21 ← d[21]?
  pure
    { is_on := (b4 &&& 1) != 0
      mode := b2 &&& 15
      fan_speed := b3 &&& 0x7F
      on_timer_value := b4
      on_timer_minutes := b6
      off_timer_value := b5
      off_timer_minutes := b6
      target_humidity := if b7 > 100 then 99 else b7
      ion_mode := ((b9 &&& 64) >>> 6) != 0
      tank_full := decide (b10 &&& 0x7F ≥ 100)
      current_humidity := b16
      err_code := b21 }

/-!
## Cloud session model

`MideaCloud` (`midea_beautiful/cloud.py`) is part of this repository but
not among the available sources; only its tests
(`src/tests/test_cloud.py`) are.  The definitions below are therefore
modelled from the spec (§4.3, §7) with the observable behaviour pinned by
those tests.  The HTTP transport is abstracted as a queue of scripted
cloud responses for the requested endpoint (consumed in order, exactly as
`requests_mock` serves them), and the sequence of performed HTTP calls is
returned as a history of endpoint names.
-/

/-- Cloud response envelope `{errorCode, msg, result}` (`errorCode` is a
numeric string in the protocol; embedded as the parsed number). -/
structure CloudResponse where
  errorCode : Nat
  msg : String
  result : Option String
  deriving Repr, DecidableEq

/-- Outcome of `api_request`, mirroring the error taxonomy: success with
the (possibly absent) `result`, `CloudError(code, message)`,
`CloudAuthenticationError(code, message)`, `RetryLaterError(code,
message)`, or `CloudRequestError` — either retry-budget exhaustion
("Too many retries while calling <endpoint>") or a transport failure. -/
inductive ApiResult where
  | ok : Option String → ApiResult
  | cloudError : Nat → String → ApiResult
  | authenticationError : Nat → String → ApiResult
  | retryLater : Nat → String → ApiResult
  | tooManyRetries : String → ApiResult
  | requestError : String → ApiResult
  deriving Repr, DecidableEq

/-- Modelled from the spec: the "fixed small number of restart attempts"
bounding the retry loop (§4.3 step 4); the exact constant is not pinned by
the spec and no claim depends on its value, only on its finiteness. -/
def maxRetries : Nat := 3

/-- The two HTTP calls of a re-login: fetch `loginId`, then login. -/
def loginCalls : List String := ["user/login/id/get", "user/login"]

/-- The re-login plus cache-refresh calls of a full restart (per
`test_full_restart`: re-login, home-group list, appliance list). -/
def fullRestartCalls : List String :=
  ["user/login/id/get", "user/login", "homegroup/list/get", "appliance/list/get"]

/-- Modelled from the spec: the retry state machine of
`MideaCloud.api_request` (§4.3).  One iteration consumes the next scripted
response for `endpoint`; `errorCode` is classified as: `0` success;
`3106` → re-login then retry the original request, counted against the
retry budget; `3144` → re-login plus cache refresh then retry, counted
likewise; `3102` → authentication error, not retried; `7610` → retry-later
error, not retried; `9999` → retried with no extra calls until the budget
is exhausted (pinned by `test_request_too_many_retries`, which expects
`CloudRequestError "Too many retries..."` for a server that always
answers 9999 — overriding the spec's "any other non-zero code ... not
retried" for this code); any other non-zero code → generic cloud error,
not retried.  An empty script models a transport failure. -/
def apiRequestGo : List CloudResponse → String → Nat → List String →
    ApiResult × List String
  | [], endpoint, _, history => (.requestError endpoint, history)
  | r :: rest, endpoint, retries, history =>
    let history := history ++ [endpoint]
    if r.errorCode == 0 then
      (.ok r.result, history)
    else if r.errorCode == 3106 then
      let history := history ++ loginCalls
      if retries + 1 < maxRetries then
        apiRequestGo rest endpoint (retries + 1) history
      else
        (.tooManyRetries endpoint, history)
    else if r.errorCode == 3144 then
      let history := history ++ fullRestartCalls
      if retries + 1 < maxRetries then
        apiRequestGo rest endpoint (retries + 1) history
      else
        (.tooManyRetries endpoint, history)
    else if r.errorCode == 3102 then
      (.authenticationError r.errorCode r.msg, history)
    else if r.errorCode == 7610 then
      (.retryLater r.errorCode r.msg, history)
    else if r.errorCode == 9999 then
      if retries + 1 < maxRetries then
        apiRequestGo rest endpoint (retries + 1) history
      else
        (.tooManyRetries endpoint, history)
    else
      (.cloudError r.errorCode r.msg, history)

/-- Modelled from the spec: `MideaCloud.api_request(endpoint, payload)`
with a fresh retry counter, returning the outcome and the ordered history
of HTTP calls performed. -/
def api_request (endpoint : String) (queue : List CloudResponse) :
    ApiResult × List String :=
  apiRequestGo queue endpoint 0 []

/-!
## Helper lemmas
-/

theorem getD_set_ne (d : List Nat) (i j x : Nat) (h : i ≠ j) :
    (d.set i x).getD j 0 = d.getD j 0 := by
  simp [List.getD_eq_getElem?_getD, List.getElem?_set_ne h]

theorem getD_set_self (d : List Nat) (i x : Nat) (h : i < d.length) :
    (d.set i x).getD i 0 = x := by
  simp [List.getD_eq_getElem?_getD, List.getElem?_set_self h]

/-- Mutating a cell at or beyond the end of a slice leaves the slice
unchanged. -/
theorem pySlice_set_of_ge (d : List Nat) (i x a b : Nat) (h : b ≤ i) :
    pySlice (d.set i x) a b = pySlice d a b := by
  unfold pySlice
  rcases Nat.lt_or_ge i a with hia | hia
  · rw [List.drop_set, if_pos hia]
  · rw [List.drop_set, if_neg (Nat.not_lt.mpr hia), List.set_take,
      List.set_eq_of_length_le]
    calc ((d.drop a).take (b - a)).length ≤ b - a := by
          simp [List.length_take]
      _ ≤ i - a := Nat.sub_le_sub_right h a

theorem land_two_pow_sub_one (x n : Nat) : x &&& (2 ^ n - 1) = x % 2 ^ n := by
  apply Nat.eq_of_testBit_eq
  intro k
  simp [Nat.testBit_and, Nat.testBit_mod_two_pow, Bool.and_comm]

theorem land_255_eq_mod (x : Nat) : x &&& 0xFF = x % 256 := by
  have h : (0xFF : Nat) = 2 ^ 8 - 1 := by norm_num
  have h2 : (256 : Nat) = 2 ^ 8 := by norm_num
  rw [h, h2, land_two_pow_sub_one]

theorem nextOrder_eq_mod (o : Nat) : nextOrder o = (o + 1) % 256 := by
  unfold nextOrder; exact land_255_eq_mod (o + 1)

/-- Python's `(~s + 1) & 0xFF` is the spec's "two's-complement of the sum,
mod 256". -/
theorem checksum8_eq_twosComplement8 (s : Nat) :
    checksum8 s = twosComplement8 s := by
  unfold checksum8 twosComplement8
  omega

/-- Reading a masked field back out of a clear-then-or byte update
recovers exactly the value that was or-ed in, provided it fits the mask. -/
theorem masked_byte_get (b v m : Nat) (hm : m < 256) (hv : v &&& m = v) :
    ((b &&& (0xFF ^^^ m)) ||| v) &&& m = v := by
  conv_rhs => rw [← hv]
  apply Nat.eq_of_testBit_eq
  intro k
  simp only [Nat.testBit_and, Nat.testBit_or, Nat.testBit_xor]
  rcases hmk : m.testBit k with _ | _
  · simp [hmk]
  · have hk : k < 8 := by
      by_contra hk
      have := Nat.testBit_eq_false_of_lt (show m < 2 ^ k from
        lt_of_lt_of_le hm (Nat.pow_le_pow_right (show 0 < 2 by norm_num)
          (Nat.le_of_not_lt hk)))
      simp [this] at hmk
    have h255 : (0xFF : Nat).testBit k = true := by
      have : (0xFF : Nat) = 2 ^ 8 - 1 := by norm_num
      rw [this, Nat.testBit_two_pow_sub_one]
      simpa using hk
    simp [hmk, h255]

/-- A clear-then-or byte update leaves every bit outside the mask
unchanged (for byte-sized cell values, as stored in a `bytearray`). -/
theorem masked_byte_sibling (b v m k : Nat) (hb : b < 256)
    (hv : v &&& m = v) (hk : m.testBit k = false) :
    ((b &&& (0xFF ^^^ m)) ||| v).testBit k = b.testBit k := by
  have hvk : v.testBit k = false := by
    rw [← hv, Nat.testBit_and, hk, Bool.and_false]
  simp only [Nat.testBit_and, Nat.testBit_or, Nat.testBit_xor, hvk, hk,
    Bool.or_false, Bool.xor_false]
  rcases Nat.lt_or_ge k 8 with h8 | h8
  · have h255 : (0xFF : Nat).testBit k = true := by
      have : (0xFF : Nat) = 2 ^ 8 - 1 := by norm_num
      rw [this, Nat.testBit_two_pow_sub_one]
      simpa using h8
    simp [h255]
  · have h255 : (0xFF : Nat).testBit k = false := by
      have : (0xFF : Nat) = 2 ^ 8 - 1 := by norm_num
      rw [this, Nat.testBit_two_pow_sub_one]
      simpa using Nat.not_lt.mpr h8
    have hbk : b.testBit k = false := Nat.testBit_eq_false_of_lt
      (lt_of_lt_of_le hb (Nat.pow_le_pow_right (show 0 < 2 by norm_num) h8))
    simp [h255, hbk]

theorem finalize_getD_of_lt (d : List Nat) (o i : Nat) (h : i < 30) :
    (finalize d o).bytes.getD i 0 = d.getD i 0 := by
  unfold finalize
  simp only
  rw [getD_set_ne _ _ _ _ (by omega), getD_set_ne _ _ _ _ (by omega),
    getD_set_ne _ _ _ _ (by omega)]

theorem finalize_order_byte (d : List Nat) (o : Nat) (h : d.length = 33) :
    (finalize d o).bytes.getD 30 0 = nextOrder o := by
  unfold finalize
  simp only
  rw [getD_set_ne _ _ _ _ (by omega), getD_set_ne _ _ _ _ (by omega),
    getD_set_self _ _ _ (by simp [h])]

theorem finalize_crc_byte (d : List Nat) (o : Nat) (h : d.length = 33) :
    (finalize d o).bytes.getD 31 0 =
      crc8 (pySlice (d.set 30 (nextOrder o)) 10 31) := by
  unfold finalize
  simp only
  rw [getD_set_ne _ _ _ _ (by omega), getD_set_self _ _ _ (by simp [h])]

theorem finalize_checksum_byte (d : List Nat) (o : Nat) (h : d.length = 33) :
    (finalize d o).bytes.getD 32 0 =
      checksum8 ((pySlice (finalize d o).bytes 1 32).sum) := by
  have hs : pySlice (finalize d o).bytes 1 32 =
      pySlice ((d.set 30 (nextOrder o)).set 31
        (crc8 (pySlice (d.set 30 (nextOrder o)) 10 31))) 1 32 := by
    unfold finalize
    simp only
    exact pySlice_set_of_ge _ _ _ _ _ (by omega)
  rw [hs]
  unfold finalize
  simp only
  exact getD_set_self _ _ _ (by simp [h])

/-- Position 20 of the CRC input slice `data[10:31]` is the freshly
written order byte at offset 30. -/
theorem pySlice_crc_getD_order (d : List Nat) (x : Nat) (h : d.length = 33) :
    (pySlice (d.set 30 x) 10 31).getD 20 0 = x := by
  unfold pySlice
  rw [List.getD_eq_getElem?_getD, show (31 : Nat) - 10 = 21 from rfl,
    List.getElem?_take_of_lt (by omega), List.getElem?_drop,
    show (10 + 20 : Nat) = 30 from rfl,
    List.getElem?_set_self (by simp [h])]
  rfl

/-- Reading a finalized masked field back from the wire bytes yields the
value that was or-ed in by the setter, whenever it fits the mask. -/
theorem maskedSet_finalize_get (d : List Nat) (o i mask v : Nat)
    (h : d.length = 33) (hi : i < 30) (hm : mask < 256) (hv : v &&& mask = v) :
    (finalize (maskedSet d i mask v) o).bytes.getD i 0 &&& mask = v := by
  rw [finalize_getD_of_lt _ _ i hi]
  unfold maskedSet
  rw [getD_set_self _ _ _ (by rw [h]; omega)]
  exact masked_byte_get _ _ _ hm hv

theorem maskedSet_getD_ne (d : List Nat) (i mask v j : Nat) (h : j ≠ i) :
    (maskedSet d i mask v).getD j 0 = d.getD j 0 :=
  getD_set_ne _ _ _ _ (Ne.symm h)

theorem maskedSet_sibling (d : List Nat) (i mask v k : Nat) (hi : i < d.length)
    (hb : d.getD i 0 < 256) (hv : v &&& mask = v) (hk : mask.testBit k = false) :
    ((maskedSet d i mask v).getD i 0).testBit k = (d.getD i 0).testBit k := by
  unfold maskedSet
  rw [getD_set_self _ _ _ hi]
  exact masked_byte_sibling _ _ _ _ hb hv hk

/-!
## Claim theorems
-/

set_option maxRecDepth 10000 in
/-- C1, counterexample: the claim says the CRC8 at offset 31 is computed
over the payload body only, with the order-counter byte at offset 30
excluded.  In fact `finalize` computes `crc8(self.data[10:31])`, a slice
that includes offset 30: on the fresh status command, the emitted CRC
byte differs from the CRC8 of the body-only slice `data[10:30]`, and
finalizing with two different order-counter states yields two different
CRC bytes, so the order byte is an input to the CRC8. -/
theorem C1_counterexample :
    (finalize statusData 0).bytes.getD 31 0 ≠ crc8 (pySlice statusData 10 30) ∧
    (finalize statusData 0).bytes.getD 31 0 ≠
      (finalize statusData 1).bytes.getD 31 0 := by
  constructor <;> decide

/-- C1, amended: `finalize` writes at offset 31 the CRC8 of the slice
`data[10:31]` of the buffer after the new order counter has been written
at offset 30 — a 21-byte slice covering offsets 10..30 inclusive, whose
last element (position 20) is precisely the fresh order byte.  The
header, length, CRC and checksum bytes are excluded, but the order byte
is included. -/
theorem C1_crc_covers_payload_and_order (d : List Nat) (o : Nat)
    (h : d.length = 33) :
    (finalize d o).bytes.getD 31 0 =
        crc8 (pySlice (d.set 30 (nextOrder o)) 10 31) ∧
    (pySlice (d.set 30 (nextOrder o)) 10 31).length = 21 ∧
    (pySlice (d.set 30 (nextOrder o)) 10 31).getD 20 0 = nextOrder o := by
  refine ⟨finalize_crc_byte d o h, ?_, pySlice_crc_getD_order d _ h⟩
  simp [pySlice, List.length_take, List.length_drop, h]

set_option maxRecDepth 10000 in
/-- C1, witness: the amended statement evaluated on the fresh status
command with order-counter state 0. -/
theorem C1_witness :
    statusData.length = 33 ∧
    (finalize statusData 0).bytes.getD 31 0 =
      crc8 (pySlice (statusData.set 30 (nextOrder 0)) 10 31) :=
  ⟨by decide, (C1_crc_covers_payload_and_order statusData 0 (by decide)).1⟩

set_option maxRecDepth 10000 in
/-- C2, counterexample: the claim says every non-zero `errorCode` outside
{3106, 3144, 3102, 7610} — for example 9999 — raises a generic
`CloudError` with no further HTTP calls.  On a server that always answers
9999 (the `test_request_too_many_retries` scenario), `api_request`
instead retries until the budget is exhausted — three HTTP calls to the
endpoint — and ends in the "too many retries" request error, not in a
`CloudError`. -/
theorem C2_counterexample :
    (api_request "too-many-retries"
        (List.replicate 3 ⟨9999, "internal error - ignore", none⟩)).1 =
      ApiResult.tooManyRetries "too-many-retries" ∧
    (api_request "too-many-retries"
        (List.replicate 3 ⟨9999, "internal error - ignore", none⟩)).2.length
      = 3 ∧
    (api_request "too-many-retries"
        (List.replicate 3 ⟨9999, "internal error - ignore", none⟩)).1 ≠
      ApiResult.cloudError 9999 "internal error - ignore" := by
  refine ⟨rfl, rfl, ?_⟩
  decide

/-- C2, amended: for every cloud response whose `errorCode` is non-zero
and not one of 3106, 3144, 3102, 7610 or 9999 (for example 2),
`api_request` raises a generic `CloudError` carrying that code and
message, and performs no further HTTP calls — the history is exactly the
single original request.  (9999 is instead treated as retryable and
exhausts the retry budget.) -/
theorem C2_generic_cloud_error (e msg : String) (code : Nat)
    (res : Option String) (rest : List CloudResponse) (h0 : code ≠ 0)
    (h1 : code ≠ 3106) (h2 : code ≠ 3144) (h3 : code ≠ 3102)
    (h4 : code ≠ 7610) (h5 : code ≠ 9999) :
    api_request e (⟨code, msg, res⟩ :: rest) = (.cloudError code msg, [e]) := by
  simp [api_request, apiRequestGo, h0, h1, h2, h3, h4, h5]

/-- C2, witness: the amended statement evaluated on the
`test_request_error` scenario (`errorCode` 2). -/
theorem C2_witness :
    (2 : Nat) ≠ 0 ∧
    api_request "dummy" [⟨2, "error message", none⟩] =
      (.cloudError 2 "error message", ["dummy"]) :=
  ⟨by decide, C2_generic_cloud_error "dummy" "error message" 2 none []
    (by decide) (by decide) (by decide) (by decide) (by decide) (by decide)⟩

/-- C3: evaluation of the timer decoders at the sentinel.  The claim says
both decoders special-case the raw byte `0x7F`, decoding set = false and
an hour/minutes not computed from the sentinel's bits, independent of the
paired minute byte.  The code only gets the `set` flag (and the on-timer
hour) right: the on-timer minutes keep the sentinel's low two bits
(value 3), while the off-timer hour is `(0x7F & 0x7C) >> 2 = 31` and its
minutes mix the sentinel's low bits with the paired minute byte (15 for
paired byte `0xFF`, 3 for paired byte `0x00`). -/
theorem C3_sentinel_decode_eval :
    (on_timer 0x7F 0xFF).set = false ∧
    (on_timer 0x7F 0xFF).hour = 0 ∧
    (on_timer 0x7F 0xFF).minutes = 3 ∧
    (off_timer 0x7F 0xFF).set = false ∧
    (off_timer 0x7F 0xFF).hour = 31 ∧
    (off_timer 0x7F 0xFF).minutes = 15 ∧
    (off_timer 0x7F 0x00).minutes = 3 := by
  decide

/-- C4: a cloud request answered first with `errorCode` 3106 and then with
success performs exactly one re-login (`loginId` fetch, then login)
followed by exactly one retry of the original request, in that order, and
returns the retried request's result — the `test_session_restart`
history shape, for every endpoint, message and scripted tail. -/
theorem C4_session_restart (e msg m2 : String) (r1 res : Option String)
    (rest : List CloudResponse) :
    api_request e (⟨3106, msg, r1⟩ :: ⟨0, m2, res⟩ :: rest) =
      (.ok res, [e, "user/login/id/get", "user/login", e]) := by
  simp [api_request, apiRequestGo, maxRetries, loginCalls]

/-- C5: wire round-trip of every settable field of the set command — for
every 33-byte command state, setting `is_on`, `mode`, `fan_speed`,
`target_humidity` or `ion_mode` to a valid value (booleans, or a numeric
value that fits the field's mask: mode < 16, fan/humidity < 128),
finalizing, and reading the field back from the finalized wire bytes
yields the value that was set. -/
theorem C5_roundtrip (d : List Nat) (o : Nat) (h : d.length = 33) :
    (∀ st : Bool, get_is_on (finalize (set_is_on d st) o).bytes = st) ∧
    (∀ m, m < 16 → get_mode (finalize (set_mode d m) o).bytes = m) ∧
    (∀ s, s < 128 → get_fan_speed (finalize (set_fan_speed d s) o).bytes = s) ∧
    (∀ hum, hum < 128 →
      get_target_humidity (finalize (set_target_humidity d hum) o).bytes
        = hum) ∧
    (∀ im : Bool, get_ion_mode (finalize (set_ion_mode d im) o).bytes = im) := by
  have h7F : (0x7F : Nat) = 2 ^ 7 - 1 := by norm_num
  refine ⟨?_, ?_, ?_, ?_, ?_⟩
  · intro st
    have hg := maskedSet_finalize_get d o 11 0x01 (if st then 0x01 else 0) h
      (by omega) (by norm_num) (by cases st <;> decide)
    unfold get_is_on set_is_on
    rw [hg]
    cases st <;> rfl
  · intro m hm16
    have hv : m &&& 0x0F = m := by
      have e : (0x0F : Nat) = 2 ^ 4 - 1 := by norm_num
      rw [e, land_two_pow_sub_one]; omega
    have hg := maskedSet_finalize_get d o 12 0x0F m h (by omega) (by norm_num) hv
    unfold get_mode set_mode
    rw [hg]
  · intro s hs
    have hv : s &&& 0x7F = s := by rw [h7F, land_two_pow_sub_one]; omega
    have hg := maskedSet_finalize_get d o 13 0x7F s h (by omega) (by norm_num) hv
    unfold get_fan_speed set_fan_speed
    rw [hg]
  · intro hum hh
    have hv : hum &&& 0x7F = hum := by rw [h7F, land_two_pow_sub_one]; omega
    have hg := maskedSet_finalize_get d o 17 0x7F hum h (by omega)
      (by norm_num) hv
    unfold get_target_humidity set_target_humidity
    rw [hg]
  · intro im
    have hg := maskedSet_finalize_get d o 19 0x60 (if im then 0x60 else 0) h
      (by omega) (by norm_num) (by cases im <;> decide)
    unfold get_ion_mode set_ion_mode
    rw [hg]
    cases im <;> rfl

set_option maxRecDepth 10000 in
/-- C5, witness: the round-trip evaluated on the fresh set command for
each field. -/
theorem C5_witness :
    setData.length = 33 ∧
    get_is_on (finalize (set_is_on setData true) 0).bytes = true ∧
    get_mode (finalize (set_mode setData 3) 0).bytes = 3 ∧
    get_fan_speed (finalize (set_fan_speed setData 40) 0).bytes = 40 ∧
    get_target_humidity (finalize (set_target_humidity setData 55) 0).bytes
      = 55 ∧
    get_ion_mode (finalize (set_ion_mode setData true) 0).bytes = true :=
  ⟨by decide,
    (C5_roundtrip setData 0 (by decide)).1 true,
    (C5_roundtrip setData 0 (by decide)).2.1 3 (by decide),
    (C5_roundtrip setData 0 (by decide)).2.2.1 40 (by decide),
    (C5_roundtrip setData 0 (by decide)).2.2.2.1 55 (by decide),
    (C5_roundtrip setData 0 (by decide)).2.2.2.2 true⟩

/-- C6: for every 33-byte command and order-counter state, `finalize`
writes at offset 32 the two's-complement, mod 256, of the sum of the
emitted command bytes from offset 1 through offset 31 inclusive (the byte
immediately preceding the checksum). -/
theorem C6_checksum_is_twos_complement (d : List Nat) (o : Nat)
    (h : d.length = 33) :
    (finalize d o).bytes.getD 32 0 =
      twosComplement8 ((pySlice (finalize d o).bytes 1 32).sum) := by
  rw [finalize_checksum_byte d o h, checksum8_eq_twosComplement8]

set_option maxRecDepth 10000 in
/-- C6, witness: the checksum property evaluated on the fresh status
command. -/
theorem C6_witness :
    statusData.length = 33 ∧
    (finalize statusData 0).bytes.getD 32 0 =
      twosComplement8 ((pySlice (finalize statusData 0).bytes 1 32).sum) :=
  ⟨by decide, C6_checksum_is_twos_complement statusData 0 (by decide)⟩

/-- C7: every `finalize` call (the status and set command classes share
the single module-global `_order` and the same update `(_order + 1) &
0xFF`, embedded once as `finalize`/`nextOrder`) advances the counter by
exactly one modulo 256, emits it at offset 30, the emitted value never
exceeds 255, and the successor of 255 is 0. -/
theorem C7_order_counter (d : List Nat) (o : Nat) (h : d.length = 33) :
    (finalize d o).order = (o + 1) % 256 ∧
    (finalize d o).order ≤ 255 ∧
    (finalize d o).bytes.getD 30 0 = (finalize d o).order ∧
    nextOrder 255 = 0 := by
  have horder : (finalize d o).order = nextOrder o := rfl
  refine ⟨?_, ?_, ?_, by decide⟩
  · rw [horder, nextOrder_eq_mod]
  · rw [horder, nextOrder_eq_mod]
    omega
  · rw [horder]
    exact finalize_order_byte d o h

set_option maxRecDepth 10000 in
/-- C7, witness: the order counter wraps from 255 to 0 on the status
command. -/
theorem C7_witness :
    statusData.length = 33 ∧
    (finalize statusData 255).order = (255 + 1) % 256 :=
  ⟨by decide, (C7_order_counter statusData 255 (by decide)).1⟩

set_option maxRecDepth 10000 in
/-- C8, counterexample: the claim says every value assigned through a
setter changes only the bits of the field's declared mask.  Assigning
`mode = 0x10` (a value outside the mode field's `0x0F` mask) through the
mode setter sets bit 4 of byte 12 — a sibling bit outside the mask that
was previously clear — because the or-in is not masked. -/
theorem C8_counterexample :
    ((set_mode setData 0x10).getD 12 0).testBit 4 = true ∧
    (setData.getD 12 0).testBit 4 = false := by
  constructor <;> decide

/-- C8, amended: for every value that fits the field's declared mask
(booleans always do; numeric values with `v &&& mask = v`), each setter
changes only the bits of that mask within its byte: every other byte of
the command is unchanged, and every bit of the target byte outside the
mask keeps its value (byte cells being below 256, as in a `bytearray`). -/
theorem C8_setters_scoped_to_mask (d : List Nat) (h : d.length = 33) :
    (∀ st : Bool, ∀ j, j ≠ 11 → (set_is_on d st).getD j 0 = d.getD j 0) ∧
    (∀ st : Bool, ∀ k, d.getD 11 0 < 256 → (0x01 : Nat).testBit k = false →
        ((set_is_on d st).getD 11 0).testBit k = (d.getD 11 0).testBit k) ∧
    (∀ m j, j ≠ 12 → (set_mode d m).getD j 0 = d.getD j 0) ∧
    (∀ m k, d.getD 12 0 < 256 → m &&& 0x0F = m →
        (0x0F : Nat).testBit k = false →
        ((set_mode d m).getD 12 0).testBit k = (d.getD 12 0).testBit k) ∧
    (∀ s j, j ≠ 13 → (set_fan_speed d s).getD j 0 = d.getD j 0) ∧
    (∀ s k, d.getD 13 0 < 256 → s &&& 0x7F = s →
        (0x7F : Nat).testBit k = false →
        ((set_fan_speed d s).getD 13 0).testBit k = (d.getD 13 0).testBit k) ∧
    (∀ hum j, j ≠ 17 → (set_target_humidity d hum).getD j 0 = d.getD j 0) ∧
    (∀ hum k, d.getD 17 0 < 256 → hum &&& 0x7F = hum →
        (0x7F : Nat).testBit k = false →
        ((set_target_humidity d hum).getD 17 0).testBit k =
          (d.getD 17 0).testBit k) ∧
    (∀ im : Bool, ∀ j, j ≠ 19 → (set_ion_mode d im).getD j 0 = d.getD j 0) ∧
    (∀ im : Bool, ∀ k, d.getD 19 0 < 256 → (0x60 : Nat).testBit k = false →
        ((set_ion_mode d im).getD 19 0).testBit k = (d.getD 19 0).testBit k) := by
  refine ⟨?_, ?_, ?_, ?_, ?_, ?_, ?_, ?_, ?_, ?_⟩
  · intro st j hj; exact maskedSet_getD_ne d 11 0x01 _ j hj
  · intro st k hb hk
    exact maskedSet_sibling d 11 0x01 _ k (by rw [h]; omega) hb
      (by cases st <;> decide) hk
  · intro m j hj; exact maskedSet_getD_ne d 12 0x0F m j hj
  · intro m k hb hv hk
    exact maskedSet_sibling d 12 0x0F m k (by rw [h]; omega) hb hv hk
  · intro s j hj; exact maskedSet_getD_ne d 13 0x7F s j hj
  · intro s k hb hv hk
    exact maskedSet_sibling d 13 0x7F s k (by rw [h]; omega) hb hv hk
  · intro hum j hj; exact maskedSet_getD_ne d 17 0x7F hum j hj
  · intro hum k hb hv hk
    exact maskedSet_sibling d 17 0x7F hum k (by rw [h]; omega) hb hv hk
  · intro im j hj; exact maskedSet_getD_ne d 19 0x60 _ j hj
  · intro im k hb hk
    exact maskedSet_sibling d 19 0x60 _ k (by rw [h]; omega) hb
      (by cases im <;> decide) hk

set_option maxRecDepth 10000 in
/-- C8, witness: on the fresh set command, assigning mode 3 leaves byte 5
and the sibling bit 4 of byte 12 unchanged. -/
theorem C8_witness :
    setData.length = 33 ∧
    (set_mode setData 3).getD 5 0 = setData.getD 5 0 ∧
    ((set_mode setData 3).getD 12 0).testBit 4 =
      (setData.getD 12 0).testBit 4 :=
  ⟨by decide,
    (C8_setters_scoped_to_mask setData (by decide)).2.2.1 3 5 (by decide),
    (C8_setters_scoped_to_mask setData (by decide)).2.2.2.1 3 4 (by decide)
      (by decide) (by decide)⟩

/-- C9, counterexample: the claim says a buffer whose header byte does not
match is a decode error.  `DehumidifierResponse.__init__` never examines
a header byte: a 22-byte all-zero buffer, whose byte 0 is not the
protocol header `0xAA`, decodes successfully. -/
theorem C9_counterexample :
    (List.replicate 22 0).getD 0 0 ≠ 0xAA ∧
    (decodeResponse (List.replicate 22 0)).isSome = true := by
  constructor <;> decide

/-- C9, amended: every buffer shorter than 22 bytes (too short for the
last decoded field, `data[0x15]`) fails to decode — the constructor
raises before returning, yielding no partially decoded state.  No header
check exists, so no claim is made about header mismatches. -/
theorem C9_short_buffer_rejected (d : List Nat) (h : d.length < 22) :
    decodeResponse d = none := by
  have h21 : d[21]? = none := List.getElem?_eq_none (by omega)
  simp [decodeResponse, h21]

/-- C9, witness: a 21-byte buffer is rejected. -/
theorem C9_witness :
    (List.replicate 21 0).length < 22 ∧
    decodeResponse (List.replicate 21 0) = none :=
  ⟨by decide, C9_short_buffer_rejected (List.replicate 21 0) (by decide)⟩

/-- C10: for every command buffer and order-counter state, the only bytes
`finalize` may change are the order byte at offset 30, the CRC8 byte at
offset 31 and the checksum byte at offset 32 — every byte at offsets 0
through 29, including all payload field bytes, keeps its value. -/
theorem C10_finalize_touches_only_trailer (d : List Nat) (o i : Nat)
    (h : i < 30) : (finalize d o).bytes.getD i 0 = d.getD i 0 :=
  finalize_getD_of_lt d o i h

set_option maxRecDepth 10000 in
/-- C10, witness: byte 9 (the message-type byte) of the set command is
unchanged by finalization. -/
theorem C10_witness :
    (9 : Nat) < 30 ∧
    (finalize setData 41).bytes.getD 9 0 = setData.getD 9 0 :=
  ⟨by decide, C10_finalize_touches_only_trailer setData 41 9 (by decide)⟩

end Midea
